import Mathlib

/-!
Shallow embedding of the 6502 emulator stub (`src/main.rs`) in Lean 4.

Machine integers are modelled as `Nat` with explicit reduction modulo the
type's width at every operation where the Rust value wraps: the 8-bit
stack-pointer arithmetic (`sp -= 1`, `sp += 1`), the 16-bit program-counter
arithmetic (`pc += 1`, `pc += 2`), and the narrowing casts (`as u8`).
Memory is a function from addresses to bytes; a write is a pointwise
function update.  Functions taking `&mut` in Rust return the updated values.
-/

def MEMSIZE : Nat := 65536

def RESET_VECTOR_LOBYTE : Nat := 0xfffc

def RESET_VECTOR_HIBYTE : Nat := 0xfffd

def BREAK_VECTOR_LOBYTE : Nat := 0xfffe

def BREAK_VECTOR_HIBYTE : Nat := 0xffff

def STATUS_BIT_INT_DIS : Nat := 0x04

def STATUS_FLAGS_BREAK : Nat := 0x10

def STATUS_FLAGS_UNUSED : Nat := 0x20

/-- The CPU register file: `struct Cpu` in the source. -/
structure Cpu where
  pc : Nat
  sp : Nat
  ac : Nat
  xr : Nat
  yr : Nat
  st : Nat
deriving Repr, DecidableEq

/-- The 64K byte memory: `struct Memory { mem: Vec<u8> }`, with the vector
modelled as a function from addresses to bytes. -/
structure Memory where
  mem : Nat → Nat

/-- Pointwise update of one memory cell (`mem.mem[addr] = b`). -/
def Memory.write (m : Memory) (addr : Nat) (b : Nat) : Memory :=
  ⟨fun a => if a = addr then b else m.mem a⟩

/-- `fn byte_to_word(lobyte: u8, hibyte: u8) -> u16`:
`((hibyte as u16) << 8) | lobyte as u16`. -/
def byte_to_word (lobyte hibyte : Nat) : Nat :=
  (hibyte <<< 8) ||| lobyte

/-- `fn reset_cpu(cpu: &mut Cpu, mem: &Memory)`.  Memory is borrowed
immutably, so only the CPU is returned: `sp = 0xff`, `pc` loaded from the
reset vector, Unused flag OR-ed into the status register. -/
def reset_cpu (cpu : Cpu) (mem : Memory) : Cpu :=
  { cpu with
    sp := 0xff
    pc := byte_to_word (mem.mem RESET_VECTOR_LOBYTE) (mem.mem RESET_VECTOR_HIBYTE)
    st := cpu.st ||| STATUS_FLAGS_UNUSED }

/-- `fn push_to_stack(b: u8, cpu: &mut Cpu, mem: &mut Memory)`: writes `b`
at `0x0100 + sp`, then decrements `sp` with 8-bit wrap
(`cpu.sp -= 1` on a `u8`, i.e. `(sp + 255) % 256`). -/
def push_to_stack (b : Nat) (cpu : Cpu) (mem : Memory) : Cpu × Memory :=
  let stack_base : Nat := 0x0100
  let memloc : Nat := stack_base + cpu.sp
  ({ cpu with sp := (cpu.sp + 255) % 256 }, mem.write memloc b)

/-- `fn pull_from_stack(cpu: &mut Cpu, mem: &Memory) -> u8`: increments `sp`
with 8-bit wrap (`cpu.sp += 1` on a `u8`), then reads `0x0100 + sp`. -/
def pull_from_stack (cpu : Cpu) (mem : Memory) : Nat × Cpu :=
  let sp1 : Nat := (cpu.sp + 1) % 256
  let stack_base : Nat := 0x0100
  let memloc : Nat := stack_base + sp1
  (mem.mem memloc, { cpu with sp := sp1 })

/-- `fn ixx(...)`: the placeholder for op codes not implemented — does
nothing at all. -/
def ixx (cpu : Cpu) (mem : Memory) : Cpu × Memory :=
  (cpu, mem)

/-- `fn i00(...)`: BRK.  Forces Break and Unused into the live status,
advances `pc` by 2 (16-bit wrap), pushes pc-high, pc-low, then status,
sets Interrupt-Disable, and loads `pc` from the break vector.  The
narrowing cast `(cpu.pc >> 8) as u8` is `% 256`. -/
def i00 (cpu : Cpu) (mem : Memory) : Cpu × Memory :=
  let cpu := { cpu with st := cpu.st ||| (STATUS_FLAGS_BREAK ||| STATUS_FLAGS_UNUSED) }
  let cpu := { cpu with pc := (cpu.pc + 2) % 65536 }
  let (cpu, mem) := push_to_stack ((cpu.pc >>> 8) % 256) cpu mem
  let (cpu, mem) := push_to_stack (cpu.pc &&& 0xff) cpu mem
  let (cpu, mem) := push_to_stack cpu.st cpu mem
  let cpu := { cpu with st := cpu.st ||| STATUS_BIT_INT_DIS }
  let cpu := { cpu with pc := (mem.mem BREAK_VECTOR_LOBYTE + ((mem.mem BREAK_VECTOR_HIBYTE <<< 8) % 65536)) % 65536 }
  (cpu, mem)

/-- `fn iea(...)`: NOP — advances `pc` by 1 (16-bit wrap), touches nothing
else. -/
def iea (cpu : Cpu) (mem : Memory) : Cpu × Memory :=
  ({ cpu with pc := (cpu.pc + 1) % 65536 }, mem)

/-- `const CPU_OPS: [CpuOp; 256]`: the dispatch table.  Entry 0x00 is
`i00`, entry 0xEA is `iea`, and every other entry is the placeholder
`ixx`, exactly as the flat array in the source. -/
def CPU_OPS (opcode : Nat) : Cpu → Memory → Cpu × Memory :=
  if opcode = 0x00 then i00
  else if opcode = 0xea then iea
  else ixx

/-- `const INSTRUCTION_TEXT: [&str; 256]`: the mnemonic table; an empty
string marks an opcode byte the source leaves undefined. -/
def INSTRUCTION_TEXT : List String := [
  "BRK", "ORA", "", "", "", "ORA", "ASL", "", "PHP", "ORA", "ASL", "", "", "ORA", "ASL", "",
  "BPL", "ORA", "", "", "", "ORA", "ASL", "", "CLC", "ORA", "", "", "", "ORA", "ASL", "",
  "JSR", "AND", "", "", "BIT", "AND", "ROL", "", "PLP", "AND", "ROL", "", "BIT", "AND", "ROL", "",
  "BMI", "AND", "", "", "", "AND", "ROL", "", "SEC", "AND", "", "", "", "AND", "ROL", "",
  "RTI", "EOR", "", "", "", "EOR", "LSR", "", "PHA", "EOR", "LSR", "", "JMP", "EOR", "LSR", "",
  "BVC", "EOR", "", "", "", "EOR", "LSR", "", "CLI", "EOR", "", "", "", "EOR", "LSR", "",
  "RTS", "ADC", "", "", "", "ADC", "ROR", "", "PLA", "ADC", "ROR", "", "JMP", "ADC", "ROR", "",
  "BVS", "ADC", "", "", "", "ADC", "ROR", "", "SEI", "ADC", "", "", "", "ADC", "ROR", "",
  "", "STA", "", "", "STY", "STA", "STX", "", "DEY", "", "TXA", "", "STY", "STA", "STX", "",
  "BCC", "STA", "", "", "STY", "STA", "STX", "", "TYA", "STA", "TXS", "", "", "STA", "", "",
  "LDY", "LDA", "LDX", "", "LDY", "LDA", "LDX", "", "TAY", "LDA", "TAX", "", "LDY", "LDA", "LDX", "",
  "BCS", "LDA", "", "", "LDY", "LDA", "LDX", "", "CLV", "LDA", "TSX", "", "LDY", "LDA", "LDX", "",
  "CPY", "CMP", "", "", "CPY", "CMP", "DEC", "", "INY", "CMP", "DEX", "", "CPY", "CMP", "DEC", "",
  "BNE", "CMP", "", "", "", "CMP", "DEC", "", "CLD", "CMP", "", "", "", "CMP", "DEC", "",
  "CPX", "SBC", "", "", "CPX", "SBC", "INC", "", "INX", "SBC", "NOP", "", "CPX", "SBC", "INC", "",
  "BEQ", "SBC", "", "", "", "SBX", "INC", "", "SED", "SBC", "", "", "", "SBX", "INC", ""
]

theorem Memory.write_self (m : Memory) (addr b : Nat) :
    (m.write addr b).mem addr = b := by
  simp [Memory.write]

theorem Memory.write_other (m : Memory) (addr b a : Nat) (h : a ≠ addr) :
    (m.write addr b).mem a = m.mem a := by
  simp [Memory.write, h]

/-- Concrete CPU state used to instantiate universally quantified theorems:
the post-reset debugging configuration of the source's main loop. -/
def cpuSample : Cpu := ⟨0x0400, 0xff, 0x00, 0x00, 0x00, 0x20⟩

/-- Concrete memory used to instantiate universally quantified theorems:
reset vector 0x0400, break vector 0x0500, all other bytes zero. -/
def memSample : Memory :=
  ⟨fun a =>
    if a = RESET_VECTOR_LOBYTE then 0x00
    else if a = RESET_VECTOR_HIBYTE then 0x04
    else if a = BREAK_VECTOR_LOBYTE then 0x00
    else if a = BREAK_VECTOR_HIBYTE then 0x05
    else 0x00⟩

/-- C2: for any memory whose reset-vector bytes are 0x00 at 0xFFFC and 0x04
at 0xFFFD, after reset_cpu the program counter is 0x0400, the stack pointer
is 0xFF, and the Unused status bit (bit 5) is set. -/
theorem reset_cpu_loads_0400 (cpu : Cpu) (mem : Memory)
    (hlo : mem.mem RESET_VECTOR_LOBYTE = 0x00)
    (hhi : mem.mem RESET_VECTOR_HIBYTE = 0x04) :
    (reset_cpu cpu mem).pc = 0x0400 ∧ (reset_cpu cpu mem).sp = 0xff ∧
    (reset_cpu cpu mem).st.testBit 5 = true := by
  refine ⟨?_, rfl, ?_⟩
  · show byte_to_word (mem.mem RESET_VECTOR_LOBYTE) (mem.mem RESET_VECTOR_HIBYTE) = 0x0400
    rw [hlo, hhi]
    decide
  · show (cpu.st ||| STATUS_FLAGS_UNUSED).testBit 5 = true
    have h32 : Nat.testBit STATUS_FLAGS_UNUSED 5 = true := by decide
    simp [Nat.testBit_or, h32]

/-- C2 witness: the reset-vector configuration written by the source's main
function. -/
theorem reset_cpu_loads_0400_witness :
    memSample.mem RESET_VECTOR_LOBYTE = 0x00 ∧
    memSample.mem RESET_VECTOR_HIBYTE = 0x04 ∧
    ((reset_cpu cpuSample memSample).pc = 0x0400 ∧
     (reset_cpu cpuSample memSample).sp = 0xff ∧
     (reset_cpu cpuSample memSample).st.testBit 5 = true) :=
  ⟨rfl, rfl, reset_cpu_loads_0400 cpuSample memSample rfl rfl⟩

/-- C5: pushing any byte and then pulling returns that byte, and the stack
pointer returns to its pre-push value, from every starting state. -/
theorem push_pull_roundtrip (cpu : Cpu) (mem : Memory) (b : Nat)
    (hsp : cpu.sp < 256) (hb : b < 256) :
    (pull_from_stack (push_to_stack b cpu mem).1 (push_to_stack b cpu mem).2).1 = b ∧
    (pull_from_stack (push_to_stack b cpu mem).1 (push_to_stack b cpu mem).2).2.sp = cpu.sp := by
  have hs : ((cpu.sp + 255) % 256 + 1) % 256 = cpu.sp := by omega
  simp only [push_to_stack, pull_from_stack, Memory.write, hs]
  simp

/-- C5 witness at a concrete state and byte. -/
theorem push_pull_roundtrip_witness :
    cpuSample.sp < 256 ∧ (0x7a : Nat) < 256 ∧
    ((pull_from_stack (push_to_stack 0x7a cpuSample memSample).1
        (push_to_stack 0x7a cpuSample memSample).2).1 = 0x7a ∧
     (pull_from_stack (push_to_stack 0x7a cpuSample memSample).1
        (push_to_stack 0x7a cpuSample memSample).2).2.sp = cpuSample.sp) :=
  ⟨by decide, by decide,
   push_pull_roundtrip cpuSample memSample 0x7a (by decide) (by decide)⟩

/-- C6: executing opcode 0xEA (NOP) through the dispatch table advances the
program counter by exactly 1 (mod 2^16) and leaves the stack pointer, the
accumulator, both index registers, the status register, and every memory
byte unchanged. -/
theorem nop_advances_pc_only (cpu : Cpu) (mem : Memory) :
    (CPU_OPS 0xea cpu mem).1.pc = (cpu.pc + 1) % 65536 ∧
    (CPU_OPS 0xea cpu mem).1.sp = cpu.sp ∧
    (CPU_OPS 0xea cpu mem).1.ac = cpu.ac ∧
    (CPU_OPS 0xea cpu mem).1.xr = cpu.xr ∧
    (CPU_OPS 0xea cpu mem).1.yr = cpu.yr ∧
    (CPU_OPS 0xea cpu mem).1.st = cpu.st ∧
    ∀ a, (CPU_OPS 0xea cpu mem).2.mem a = mem.mem a := by
  refine ⟨rfl, rfl, rfl, rfl, rfl, rfl, fun a => rfl⟩

/-- C9: every opcode byte other than 0x00 (BRK) and 0xEA (NOP) dispatches
to the placeholder, which leaves the whole CPU state (including the program
counter) and the memory completely unchanged. -/
theorem other_opcodes_leave_state_unchanged (n : Nat) (cpu : Cpu) (mem : Memory)
    (hn : n < 256) (h0 : n ≠ 0x00) (hea : n ≠ 0xea) :
    CPU_OPS n cpu mem = (cpu, mem) := by
  simp [CPU_OPS, h0, hea, ixx]

/-- C9 witness at opcode 0x42. -/
theorem other_opcodes_leave_state_unchanged_witness :
    (0x42 : Nat) < 256 ∧ (0x42 : Nat) ≠ 0x00 ∧ (0x42 : Nat) ≠ 0xea ∧
    CPU_OPS 0x42 cpuSample memSample = (cpuSample, memSample) :=
  ⟨by decide, by decide, by decide,
   other_opcodes_leave_state_unchanged 0x42 cpuSample memSample
     (by decide) (by decide) (by decide)⟩

/-- C10: reset_cpu leaves the accumulator and both index registers
unchanged, and every status bit that was set stays set (the status register
is only OR-ed with the Unused mask).  Memory is borrowed immutably by
reset_cpu, so it cannot be written at all. -/
theorem reset_cpu_frame (cpu : Cpu) (mem : Memory) (i : Nat)
    (hbit : cpu.st.testBit i = true) :
    (reset_cpu cpu mem).ac = cpu.ac ∧ (reset_cpu cpu mem).xr = cpu.xr ∧
    (reset_cpu cpu mem).yr = cpu.yr ∧
    (reset_cpu cpu mem).st.testBit i = true := by
  refine ⟨rfl, rfl, rfl, ?_⟩
  simp only [reset_cpu]
  simp [Nat.testBit_or, hbit]

/-- C10 witness: the Unused bit set before reset is still set after. -/
theorem reset_cpu_frame_witness :
    cpuSample.st.testBit 5 = true ∧
    ((reset_cpu cpuSample memSample).ac = cpuSample.ac ∧
     (reset_cpu cpuSample memSample).xr = cpuSample.xr ∧
     (reset_cpu cpuSample memSample).yr = cpuSample.yr ∧
     (reset_cpu cpuSample memSample).st.testBit 5 = true) :=
  ⟨by decide, reset_cpu_frame cpuSample memSample 5 (by decide)⟩

/-- C3: register and stack-pointer arithmetic is total wrap-around, never a
failure: a push at stack pointer 0x00 wraps it to 0xFF; a pull at 0xFF
wraps it to 0x00; the program-counter increment of BRK wraps mod 2^16 at
0xFFFF (observable in the pushed return-address bytes 0x00/0x01 of the
wrapped address 0x0001); the increment of NOP wraps 0xFFFF to 0x0000. -/
theorem wrap_around_semantics (cpu : Cpu) (mem : Memory) (b : Nat) :
    (cpu.sp = 0x00 → (push_to_stack b cpu mem).1.sp = 0xff) ∧
    (cpu.sp = 0xff → (pull_from_stack cpu mem).2.sp = 0x00) ∧
    (cpu.pc = 0xffff → cpu.sp = 0xff →
      (i00 cpu mem).2.mem 0x01ff = 0x00 ∧ (i00 cpu mem).2.mem 0x01fe = 0x01) ∧
    (cpu.pc = 0xffff → (iea cpu mem).1.pc = 0x0000) := by
  refine ⟨?_, ?_, ?_, ?_⟩
  · intro h
    simp only [push_to_stack]
    simp [h]
  · intro h
    simp only [pull_from_stack]
    simp [h]
  · intro hpc hsp
    simp only [i00, push_to_stack, Memory.write, hpc, hsp]
    norm_num
    decide
  · intro h
    simp only [iea]
    simp [h]

/-- C3 witness: each wrap instantiated at a concrete extreme state. -/
theorem wrap_around_semantics_witness :
    (push_to_stack 0x7a ⟨0x0400, 0x00, 0x00, 0x00, 0x00, 0x20⟩ memSample).1.sp = 0xff ∧
    (pull_from_stack cpuSample memSample).2.sp = 0x00 ∧
    ((i00 ⟨0xffff, 0xff, 0x00, 0x00, 0x00, 0x20⟩ memSample).2.mem 0x01ff = 0x00 ∧
     (i00 ⟨0xffff, 0xff, 0x00, 0x00, 0x00, 0x20⟩ memSample).2.mem 0x01fe = 0x01) ∧
    (iea ⟨0xffff, 0xff, 0x00, 0x00, 0x00, 0x20⟩ memSample).1.pc = 0x0000 :=
  ⟨(wrap_around_semantics ⟨0x0400, 0x00, 0x00, 0x00, 0x00, 0x20⟩ memSample 0x7a).1 rfl,
   (wrap_around_semantics cpuSample memSample 0x00).2.1 rfl,
   (wrap_around_semantics ⟨0xffff, 0xff, 0x00, 0x00, 0x00, 0x20⟩ memSample 0x00).2.2.1 rfl rfl,
   (wrap_around_semantics ⟨0xffff, 0xff, 0x00, 0x00, 0x00, 0x20⟩ memSample 0x00).2.2.2 rfl⟩

theorem i00_mem (cpu : Cpu) (mem : Memory) :
    (i00 cpu mem).2 =
      ((mem.write (0x0100 + cpu.sp) ((((cpu.pc + 2) % 65536) >>> 8) % 256)).write
        (0x0100 + (cpu.sp + 255) % 256) (((cpu.pc + 2) % 65536) &&& 0xff)).write
        (0x0100 + ((cpu.sp + 255) % 256 + 255) % 256)
        (cpu.st ||| (STATUS_FLAGS_BREAK ||| STATUS_FLAGS_UNUSED)) := rfl

theorem i00_st (cpu : Cpu) (mem : Memory) :
    (i00 cpu mem).1.st =
      (cpu.st ||| (STATUS_FLAGS_BREAK ||| STATUS_FLAGS_UNUSED)) ||| STATUS_BIT_INT_DIS := rfl

theorem i00_sp (cpu : Cpu) (mem : Memory) :
    (i00 cpu mem).1.sp = (((cpu.sp + 255) % 256 + 255) % 256 + 255) % 256 := rfl

theorem i00_pc (cpu : Cpu) (mem : Memory) :
    (i00 cpu mem).1.pc =
      ((i00 cpu mem).2.mem BREAK_VECTOR_LOBYTE +
        (((i00 cpu mem).2.mem BREAK_VECTOR_HIBYTE) <<< 8) % 65536) % 65536 := rfl

/-- C1: executing BRK with pc = 0x0400 and break vector 0x0500 leaves the
stack holding, top to bottom (addresses 0x0100+sp-2, +sp-1, +sp), the
status byte with bits 0x30 forced set, the low byte 0x02 and the high byte
0x04 of the advanced return address 0x0402; sets Interrupt-Disable; and
sets pc to 0x0500. -/
theorem brk_microsequence (cpu : Cpu) (mem : Memory)
    (hpc : cpu.pc = 0x0400) (hsp : cpu.sp < 256)
    (hlo : mem.mem BREAK_VECTOR_LOBYTE = 0x00)
    (hhi : mem.mem BREAK_VECTOR_HIBYTE = 0x05) :
    (i00 cpu mem).2.mem (0x0100 + (cpu.sp + 254) % 256) = cpu.st ||| 0x30 ∧
    ((i00 cpu mem).2.mem (0x0100 + (cpu.sp + 254) % 256)).testBit 4 = true ∧
    ((i00 cpu mem).2.mem (0x0100 + (cpu.sp + 254) % 256)).testBit 5 = true ∧
    (i00 cpu mem).2.mem (0x0100 + (cpu.sp + 255) % 256) = 0x02 ∧
    (i00 cpu mem).2.mem (0x0100 + cpu.sp) = 0x04 ∧
    (i00 cpu mem).1.st.testBit 2 = true ∧
    (i00 cpu mem).1.pc = 0x0500 := by
  have hmask : STATUS_FLAGS_BREAK ||| STATUS_FLAGS_UNUSED = 0x30 := by decide
  have e3 : 0x0100 + ((cpu.sp + 255) % 256 + 255) % 256 = 0x0100 + (cpu.sp + 254) % 256 := by
    omega
  have hval : (i00 cpu mem).2.mem (0x0100 + (cpu.sp + 254) % 256) = cpu.st ||| 0x30 := by
    rw [i00_mem, e3, Memory.write_self, hmask]
  have h4 : Nat.testBit 0x30 4 = true := by decide
  have h5 : Nat.testBit 0x30 5 = true := by decide
  have h2i : Nat.testBit STATUS_BIT_INT_DIS 2 = true := by decide
  refine ⟨hval, ?_, ?_, ?_, ?_, ?_, ?_⟩
  · rw [hval]
    simp [Nat.testBit_or, h4]
  · rw [hval]
    simp [Nat.testBit_or, h5]
  · rw [i00_mem, Memory.write_other _ _ _ _ (by omega), Memory.write_self, hpc]
    decide
  · rw [i00_mem, Memory.write_other _ _ _ _ (by omega),
      Memory.write_other _ _ _ _ (by omega), Memory.write_self, hpc]
    decide
  · rw [i00_st]
    simp [Nat.testBit_or, h2i]
  · rw [i00_pc, i00_mem]
    rw [Memory.write_other _ _ _ _ (by simp only [BREAK_VECTOR_LOBYTE]; omega),
      Memory.write_other _ _ _ _ (by simp only [BREAK_VECTOR_LOBYTE]; omega),
      Memory.write_other _ _ _ _ (by simp only [BREAK_VECTOR_LOBYTE]; omega),
      Memory.write_other _ _ _ _ (by simp only [BREAK_VECTOR_HIBYTE]; omega),
      Memory.write_other _ _ _ _ (by simp only [BREAK_VECTOR_HIBYTE]; omega),
      Memory.write_other _ _ _ _ (by simp only [BREAK_VECTOR_HIBYTE]; omega)]
    rw [hlo, hhi]
    decide

/-- C1 witness: the configuration of the spec's force-break test. -/
theorem brk_microsequence_witness :
    cpuSample.pc = 0x0400 ∧ cpuSample.sp < 256 ∧
    memSample.mem BREAK_VECTOR_LOBYTE = 0x00 ∧
    memSample.mem BREAK_VECTOR_HIBYTE = 0x05 ∧
    ((i00 cpuSample memSample).2.mem (0x0100 + (cpuSample.sp + 254) % 256) =
        cpuSample.st ||| 0x30 ∧
     ((i00 cpuSample memSample).2.mem (0x0100 + (cpuSample.sp + 254) % 256)).testBit 4 = true ∧
     ((i00 cpuSample memSample).2.mem (0x0100 + (cpuSample.sp + 254) % 256)).testBit 5 = true ∧
     (i00 cpuSample memSample).2.mem (0x0100 + (cpuSample.sp + 255) % 256) = 0x02 ∧
     (i00 cpuSample memSample).2.mem (0x0100 + cpuSample.sp) = 0x04 ∧
     (i00 cpuSample memSample).1.st.testBit 2 = true ∧
     (i00 cpuSample memSample).1.pc = 0x0500) :=
  ⟨rfl, by decide, by decide, by decide,
   brk_microsequence cpuSample memSample rfl (by decide) (by decide) (by decide)⟩

/-- C8: BRK pushes the return address high-byte-first: the high byte of the
advanced pc lands at stack address 0x0100+sp and the low byte at
0x0100+(sp-1 mod 256), the lower (nearer-the-top) stack address. -/
theorem brk_pushes_return_address_high_first (cpu : Cpu) (mem : Memory)
    (hsp : cpu.sp < 256) :
    (i00 cpu mem).2.mem (0x0100 + cpu.sp) = ((cpu.pc + 2) % 65536) >>> 8 ∧
    (i00 cpu mem).2.mem (0x0100 + (cpu.sp + 255) % 256) = ((cpu.pc + 2) % 65536) % 256 := by
  constructor
  · rw [i00_mem, Memory.write_other _ _ _ _ (by omega),
      Memory.write_other _ _ _ _ (by omega), Memory.write_self]
    have hlt : ((cpu.pc + 2) % 65536) >>> 8 < 256 := by
      rw [Nat.shiftRight_eq_div_pow]
      omega
    exact Nat.mod_eq_of_lt hlt
  · rw [i00_mem, Memory.write_other _ _ _ _ (by omega), Memory.write_self]
    have h := Nat.and_pow_two_sub_one_eq_mod ((cpu.pc + 2) % 65536) 8
    norm_num at h
    rw [h]
    omega

/-- C8 witness at the post-reset state. -/
theorem brk_pushes_return_address_high_first_witness :
    cpuSample.sp < 256 ∧
    ((i00 cpuSample memSample).2.mem (0x0100 + cpuSample.sp) =
       ((cpuSample.pc + 2) % 65536) >>> 8 ∧
     (i00 cpuSample memSample).2.mem (0x0100 + (cpuSample.sp + 255) % 256) =
       ((cpuSample.pc + 2) % 65536) % 256) :=
  ⟨by decide, brk_pushes_return_address_high_first cpuSample memSample (by decide)⟩

/-- C7: 16-bit values are composed little-endian: byte_to_word builds
256*hi+lo; reset_cpu loads pc as that composition of the bytes at
0xFFFC/0xFFFD; BRK loads pc identically from the bytes at 0xFFFE/0xFFFF. -/
theorem little_endian_composition (lo hi : Nat) (cpu : Cpu) (mem : Memory) :
    (lo < 256 → hi < 256 → byte_to_word lo hi = 256 * hi + lo) ∧
    (reset_cpu cpu mem).pc =
      byte_to_word (mem.mem RESET_VECTOR_LOBYTE) (mem.mem RESET_VECTOR_HIBYTE) ∧
    (cpu.sp < 256 → mem.mem BREAK_VECTOR_LOBYTE < 256 →
      mem.mem BREAK_VECTOR_HIBYTE < 256 →
      (i00 cpu mem).1.pc =
        byte_to_word (mem.mem BREAK_VECTOR_LOBYTE) (mem.mem BREAK_VECTOR_HIBYTE)) := by
  have key : ∀ l h : Nat, l < 256 → h < 256 → (h <<< 8) ||| l = 256 * h + l := by
    intro l h hl hh
    have hl8 : l < 2 ^ 8 := by simpa using hl
    have hor := Nat.mul_add_lt_is_or hl8 h
    rw [Nat.shiftLeft_eq, Nat.mul_comm h (2 ^ 8), ← hor]
  refine ⟨?_, rfl, ?_⟩
  · intro hlo hhi
    rw [byte_to_word]
    exact key lo hi hlo hhi
  · intro hsp hblo hbhi
    rw [i00_pc, i00_mem]
    rw [Memory.write_other _ _ _ _ (by simp only [BREAK_VECTOR_LOBYTE]; omega),
      Memory.write_other _ _ _ _ (by simp only [BREAK_VECTOR_LOBYTE]; omega),
      Memory.write_other _ _ _ _ (by simp only [BREAK_VECTOR_LOBYTE]; omega),
      Memory.write_other _ _ _ _ (by simp only [BREAK_VECTOR_HIBYTE]; omega),
      Memory.write_other _ _ _ _ (by simp only [BREAK_VECTOR_HIBYTE]; omega),
      Memory.write_other _ _ _ _ (by simp only [BREAK_VECTOR_HIBYTE]; omega)]
    rw [byte_to_word,
      key (mem.mem BREAK_VECTOR_LOBYTE) (mem.mem BREAK_VECTOR_HIBYTE) hblo hbhi]
    have hsh : mem.mem BREAK_VECTOR_HIBYTE <<< 8 = 256 * mem.mem BREAK_VECTOR_HIBYTE := by
      rw [Nat.shiftLeft_eq]
      ring
    rw [hsh]
    omega

/-- C7 witness: concrete bytes and the sample vector configuration. -/
theorem little_endian_composition_witness :
    (0x34 : Nat) < 256 ∧ (0x12 : Nat) < 256 ∧
    byte_to_word 0x34 0x12 = 256 * 0x12 + 0x34 ∧
    (reset_cpu cpuSample memSample).pc =
      byte_to_word (memSample.mem RESET_VECTOR_LOBYTE) (memSample.mem RESET_VECTOR_HIBYTE) ∧
    cpuSample.sp < 256 ∧ memSample.mem BREAK_VECTOR_LOBYTE < 256 ∧
    memSample.mem BREAK_VECTOR_HIBYTE < 256 ∧
    (i00 cpuSample memSample).1.pc =
      byte_to_word (memSample.mem BREAK_VECTOR_LOBYTE) (memSample.mem BREAK_VECTOR_HIBYTE) :=
  ⟨by decide, by decide,
   (little_endian_composition 0x34 0x12 cpuSample memSample).1 (by decide) (by decide),
   (little_endian_composition 0x34 0x12 cpuSample memSample).2.1,
   by decide, by decide, by decide,
   (little_endian_composition 0x34 0x12 cpuSample memSample).2.2
     (by decide) (by decide) (by decide)⟩

/-- C4 counterexample: opcode 0x02 is one the architecture leaves
officially undefined (its mnemonic entry in the source's table is empty),
yet the dispatched handler applies no such policy: it neither consumes the
instruction's nominal byte length (the program counter does not advance by
1, 2 or 3 — it does not move at all) nor returns any classification (its
type has no report channel); the whole CPU state comes back bit-for-bit
unchanged. -/
theorem undefined_opcode_policy_cex :
    INSTRUCTION_TEXT.getD 0x02 default = "" ∧
    (CPU_OPS 0x02 ⟨0x0400, 0xff, 0x00, 0x00, 0x00, 0x20⟩ ⟨fun _ => 0x00⟩).1.pc = 0x0400 ∧
    ¬ ((CPU_OPS 0x02 ⟨0x0400, 0xff, 0x00, 0x00, 0x00, 0x20⟩ ⟨fun _ => 0x00⟩).1.pc = 0x0401 ∨
       (CPU_OPS 0x02 ⟨0x0400, 0xff, 0x00, 0x00, 0x00, 0x20⟩ ⟨fun _ => 0x00⟩).1.pc = 0x0402 ∨
       (CPU_OPS 0x02 ⟨0x0400, 0xff, 0x00, 0x00, 0x00, 0x20⟩ ⟨fun _ => 0x00⟩).1.pc = 0x0403) ∧
    (CPU_OPS 0x02 ⟨0x0400, 0xff, 0x00, 0x00, 0x00, 0x20⟩ ⟨fun _ => 0x00⟩).1 =
      ⟨0x0400, 0xff, 0x00, 0x00, 0x00, 0x20⟩ := by
  refine ⟨by decide, rfl, by decide, rfl⟩

/-- C4 amended: every opcode byte whose mnemonic entry is empty (the bytes
the source leaves undefined) dispatches to the shared placeholder, which
performs no state change whatsoever — it consumes zero bytes (the program
counter is untouched) and reports nothing; the only documented policy is
the placeholder comment in the source. -/
theorem undefined_opcode_placeholder (n : Nat) (cpu : Cpu) (mem : Memory)
    (hn : n < 256) (hund : INSTRUCTION_TEXT.getD n default = "") :
    CPU_OPS n cpu mem = (cpu, mem) := by
  have h0 : n ≠ 0x00 := by
    rintro rfl
    exact absurd hund (by decide)
  have hea : n ≠ 0xea := by
    rintro rfl
    exact absurd hund (by decide)
  simp [CPU_OPS, h0, hea, ixx]

/-- C4 amended-claim witness at the undefined opcode 0x02. -/
theorem undefined_opcode_placeholder_witness :
    (0x02 : Nat) < 256 ∧ INSTRUCTION_TEXT.getD 0x02 default = "" ∧
    CPU_OPS 0x02 cpuSample memSample = (cpuSample, memSample) :=
  ⟨by decide, by decide,
   undefined_opcode_placeholder 0x02 cpuSample memSample (by decide) (by decide)⟩
